import Mathlib

/-!
# EmailAccount (src/emailaccount.cpp)

A shallow embedding of the `EmailAccount` class: the account object, the
account configuration (a key/value store per service), the two service
configuration handles, and the methods of the class as pure functions on an
explicit state.  `QString` is `String`; a null `QString` and an empty one
compare equal in Qt, both are the empty string here.  Calls into the service
actions and emitted signals are returned as a list of effects.  The method
`test()` only arms a timer for `testConfiguration()` and is left out.
-/

namespace EmailAccount

/-! ## The key/value configuration store -/

/-- Key/value pairs of one service, first binding of a key wins. -/
abbrev KeyValues := List (String × String)

/-- Value bound to key `k`, the empty string when there is none. -/
def kvValue : KeyValues → String → String
  | [], _ => ""
  | (k', v) :: rest, k => if k' = k then v else kvValue rest k

/-- Bind key `k` to `v`, replacing the binding in place when there is one. -/
def kvSet : KeyValues → String → String → KeyValues
  | [], k, v => [(k, v)]
  | (k', v') :: rest, k, v => if k' = k then (k, v) :: rest else (k', v') :: kvSet rest k v

/-- Modelled from the spec: the external account-configuration key/value store
(QMailAccountConfiguration of the mail library, not part of this repository):
a list of named services, each holding key/value pairs stored verbatim. -/
structure QMailAccountConfiguration where
  entries : List (String × KeyValues)
deriving DecidableEq, Repr

namespace QMailAccountConfiguration

/-- Names of the configured services. -/
def services (c : QMailAccountConfiguration) : List String :=
  c.entries.map Prod.fst

/-- Adds an empty configuration for `service`; nothing happens when the service
is already configured. -/
def addServiceConfiguration (c : QMailAccountConfiguration) (service : String) :
    QMailAccountConfiguration :=
  if service ∈ c.services then c else ⟨c.entries ++ [(service, [])]⟩

/-- Removes the configuration of `service`. -/
def removeServiceConfiguration (c : QMailAccountConfiguration) (service : String) :
    QMailAccountConfiguration :=
  ⟨c.entries.filter (fun e => e.1 ≠ service)⟩

/-- Key/value pairs of `service` (empty when the service is not configured). -/
def lookupService : List (String × KeyValues) → String → KeyValues
  | [], _ => []
  | (n, kv) :: rest, service => if n = service then kv else lookupService rest service

/-- Applies `f` to the key/value pairs of `service`. -/
def modifyService : List (String × KeyValues) → String → (KeyValues → KeyValues) →
    List (String × KeyValues)
  | [], _, _ => []
  | (n, kv) :: rest, service, f =>
    if n = service then (n, f kv) :: rest else (n, kv) :: modifyService rest service f

/-- The value stored for `service` under `key`. -/
def serviceValue (c : QMailAccountConfiguration) (service key : String) : String :=
  kvValue (lookupService c.entries service) key

/-- Stores `value` for `service` under `key`. -/
def setServiceValue (c : QMailAccountConfiguration) (service key value : String) :
    QMailAccountConfiguration :=
  ⟨modifyService c.entries service (fun kv => kvSet kv key value)⟩

end QMailAccountConfiguration

/-- A `QMailServiceConfiguration` handle: the service it points at inside the
account configuration, or `none` when the service was not configured at the
time the handle was made (reads then give the null string and writes are
dropped). -/
abbrev QMailServiceConfiguration := Option String

namespace QMailServiceConfiguration

/-- Constructor `QMailServiceConfiguration(config, service)`. -/
def make (config : QMailAccountConfiguration) (service : String) : QMailServiceConfiguration :=
  if service ∈ config.services then some service else none

/-- Handle read `value(name)`. -/
def value (h : QMailServiceConfiguration) (config : QMailAccountConfiguration)
    (name : String) : String :=
  match h with
  | none => ""
  | some service => config.serviceValue service name

/-- Handle write `setValue(name, value)`. -/
def setValue (h : QMailServiceConfiguration) (config : QMailAccountConfiguration)
    (name val : String) : QMailAccountConfiguration :=
  match h with
  | none => config
  | some service => config.setServiceValue service name val

end QMailServiceConfiguration

namespace QMailServiceConfiguration

/-- Handle write `setVersion(version)`: the version is kept under key "version". -/
def setVersion (h : QMailServiceConfiguration) (config : QMailAccountConfiguration)
    (version : String) : QMailAccountConfiguration :=
  h.setValue config "version" version

/-- Handle write `setType(type)`: the type is kept under key "servicetype". -/
def setType (h : QMailServiceConfiguration) (config : QMailAccountConfiguration)
    (type : String) : QMailAccountConfiguration :=
  h.setValue config "servicetype" type

end QMailServiceConfiguration

/-! ## The account object and the service actions -/

/-- Account identifier; the default-constructed identifier is 0 and is the
only invalid one. -/
structure QMailAccountId where
  toULongLong : Nat
deriving DecidableEq, Repr

/-- Validity test `QMailAccountId::isValid()`. -/
def QMailAccountId.isValid (i : QMailAccountId) : Bool := i.toULongLong != 0

/-- Status flags of an account that `save()` and `setEnabled()` touch. -/
inductive StatusFlag
  | UserEditable | UserRemovable | MessageSource | CanRetrieve
  | MessageSink | CanTransmit | Enabled | CanCreateFolders
deriving DecidableEq, Repr

/-- The `QMailAccount` object held in `mAccount`. -/
structure QMailAccount where
  id : QMailAccountId
  name : String
  fromAddress : String
  status : List StatusFlag
  customFields : KeyValues
deriving DecidableEq, Repr

namespace QMailAccount

/-- Sets or clears one status flag. -/
def setStatus (a : QMailAccount) (flag : StatusFlag) (set : Bool) : QMailAccount :=
  if set then
    (if flag ∈ a.status then a else { a with status := flag :: a.status })
  else { a with status := a.status.filter (fun f => f ≠ flag) }

/-- Reads a custom field, the null string when it is not set. -/
def customField (a : QMailAccount) (name : String) : String := kvValue a.customFields name

/-- Writes a custom field. -/
def setCustomField (a : QMailAccount) (name val : String) : QMailAccount :=
  { a with customFields := kvSet a.customFields name val }

end QMailAccount

/-- Activity reported by a service action (`QMailServiceAction::Activity`). -/
inductive Activity
  | Pending | InProgress | Successful | Failed
deriving DecidableEq, Repr

/-- Status object of a service action: an error code and a text. -/
structure Status where
  errorCode : Int
  text : String
deriving DecidableEq, Repr

/-- A service action object (retrieval or transmit), as far as this class reads
it: its current status. -/
structure QMailServiceAction where
  status : Status
deriving DecidableEq, Repr

/-- Who sent the `activityChanged` signal, as compared by the slot. -/
inductive Sender
  | retrievalAction | transmitAction | other
deriving DecidableEq, Repr

/-- Argument of the `testFailed` signal. -/
inductive ServerType
  | IncomingServer | OutgoingServer | InvalidAccount
deriving DecidableEq, Repr

/-- What a method does to the outside: calls into the service actions and
emitted signals, in order. -/
inductive Effect
  | retrieveFolderList (id : QMailAccountId)
  | transmitMessages (id : QMailAccountId)
  | testSucceeded
  | testFailed (which : ServerType)
deriving DecidableEq, Repr

/-! ## Declarations of emailaccount.h used by the code -/

/-- The enumerators of `PresetType` that `applyPreset()` and `save()` compare
`preset()` with.  Their numeric values are declared in emailaccount.h; the
code only needs them to be pairwise different (they are the labels of one
`switch`). -/
structure PresetType where
  noPreset : Int
  mobilemePreset : Int
  gmailPreset : Int
  yahooPreset : Int
  aolPreset : Int
  mslivePreset : Int
  distinct : [noPreset, mobilemePreset, gmailPreset, yahooPreset, aolPreset, mslivePreset].Nodup

/-- The `Base64` helper of emailaccount.h: `Base64::encode` and
`Base64::decode`, the encoder and decoder of the mail library. -/
structure Base64 where
  encode : String → String
  decode : String → String

/-! ## The state of an EmailAccount -/

/-- The member variables of `EmailAccount`. -/
structure State where
  mAccount : QMailAccount
  mAccountConfig : QMailAccountConfiguration
  mRecvCfg : QMailServiceConfiguration
  mSendCfg : QMailServiceConfiguration
  mRetrievalAction : QMailServiceAction
  mTransmitAction : QMailServiceAction
  mRecvType : String
  mPassword : String
  mErrorMessage : String
  mErrorCode : Int
deriving DecidableEq, Repr

/-! ## QString helpers of the Qt library that the code calls -/

namespace QString

/-- Value of a decimal digit. -/
def digitValue (c : Char) : Option Nat :=
  if '0' ≤ c ∧ c ≤ '9' then some (c.toNat - '0'.toNat) else none

/-- Value of a run of decimal digits, `none` when a character is no digit. -/
def digitsValue : List Char → Nat → Option Nat
  | [], acc => some acc
  | c :: cs, acc =>
    match digitValue c with
    | some d => digitsValue cs (acc * 10 + d)
    | none => none

/-- White space skipped around a number. -/
def isSpace (c : Char) : Bool :=
  c.toNat = 32 || (9 ≤ c.toNat && c.toNat ≤ 13)

/-- Unsigned magnitude of a non-empty run of digits. -/
def magnitude (ds : List Char) : Option Nat :=
  if ds = [] then none else digitsValue ds 0

/-- The call `QString::toInt()`: base 10, white space around the number is
skipped, the result is 0 when the text is no number or does not fit an `int`. -/
def toInt (s : String) : Int :=
  let cs := ((s.data.dropWhile isSpace).reverse.dropWhile isSpace).reverse
  match cs with
  | '-' :: ds =>
    match magnitude ds with
    | some n => if n ≤ 2147483648 then - (n : Int) else 0
    | none => 0
  | '+' :: ds =>
    match magnitude ds with
    | some n => if n ≤ 2147483647 then (n : Int) else 0
    | none => 0
  | ds =>
    match magnitude ds with
    | some n => if n ≤ 2147483647 then (n : Int) else 0
    | none => 0

/-- The call `QString::number(int)`. -/
def number (n : Int) : String := toString n

/-- The call `remove(QRegExp("@.*$"))` on a list of characters: the first match
starts at the first at-sign and, the dot matching every character, runs to the
end of the string; without an at-sign nothing matches. -/
def removeAtToEnd : List Char → List Char
  | [] => []
  | c :: cs => if c = '@' then [] else c :: removeAtToEnd cs

/-- The call `remove(QRegExp("^.*@"))` on a list of characters: the match is
anchored at the start and, the star being greedy, ends at the last at-sign;
without an at-sign nothing matches. -/
def removeStartToAt : List Char → List Char
  | [] => []
  | c :: cs => if '@' ∈ cs then removeStartToAt cs else if c = '@' then cs else c :: cs

end QString

/-! ## The translation tables (anonymous namespace of the source) -/

/-- The only supported types here (external type) are: 0 is pop3, 1 is imap4. -/
def externalRecvType (internal : String) : String :=
  if internal = "pop3" then "0"
  else if internal = "imap4" then "1"
  else ""

/-- Internal type is the stored value. -/
def internalRecvType (external : String) : String :=
  if external = "0" then "pop3"
  else if external = "1" then "imap4"
  else ""

/-- Code of a security type. -/
def securityType (securityType : String) : String :=
  if securityType = "SSL" then "1"
  else if securityType = "TLS" then "2"
  else "0"

/-- Code of an authorization type. -/
def authorizationType (authType : String) : String :=
  if authType = "Login" then "1"
  else if authType = "Plain" then "2"
  else if authType = "CRAM-MD5" then "3"
  else "0"

/-! ## Construction -/

/-- The method `init()`. -/
def init (s : State) : State :=
  let services := s.mAccountConfig.services
  let cfg := s.mAccountConfig
  let cfg :=
    if "qmfstoragemanager" ∉ services then
      let cfg := cfg.addServiceConfiguration "qmfstoragemanager"
      let storageCfg := QMailServiceConfiguration.make cfg "qmfstoragemanager"
      let cfg := storageCfg.setType cfg "storage"
      let cfg := storageCfg.setVersion cfg "101"
      storageCfg.setValue cfg "basePath" ""
    else cfg
  let cfg := if "smtp" ∉ services then cfg.addServiceConfiguration "smtp" else cfg
  let (recvType, cfg) :=
    if "imap4" ∈ services then ("imap4", cfg)
    else if "pop3" ∈ services then ("pop3", cfg)
    else ("pop3", cfg.addServiceConfiguration "pop3")
  let sendCfg := QMailServiceConfiguration.make cfg "smtp"
  let recvCfg := QMailServiceConfiguration.make cfg recvType
  let cfg := sendCfg.setType cfg "sink"
  let cfg := sendCfg.setVersion cfg "100"
  let cfg := recvCfg.setType cfg "source"
  let cfg := recvCfg.setVersion cfg "100"
  { s with mAccountConfig := cfg, mRecvType := recvType, mSendCfg := sendCfg, mRecvCfg := recvCfg }

/-- A default-constructed `QMailAccount`. -/
def QMailAccount.fresh : QMailAccount :=
  { id := ⟨0⟩, name := "", fromAddress := "", status := [], customFields := [] }

/-- A service action that has not run: no error, no text. -/
def QMailServiceAction.fresh : QMailServiceAction := ⟨⟨0, ""⟩⟩

/-- The members as the constructors set them before calling `init()`. -/
def rawState (account : QMailAccount) (config : QMailAccountConfiguration) : State :=
  { mAccount := account, mAccountConfig := config, mRecvCfg := none, mSendCfg := none,
    mRetrievalAction := QMailServiceAction.fresh, mTransmitAction := QMailServiceAction.fresh,
    mRecvType := "", mPassword := "", mErrorMessage := "", mErrorCode := 0 }

/-- The constructor `EmailAccount()`. -/
def new : State := init (rawState QMailAccount.fresh ⟨[]⟩)

/-- The constructor `EmailAccount(const QMailAccount &other)`; `stored` is the
configuration the mail store holds for the account. -/
def ofAccount (other : QMailAccount) (stored : QMailAccountConfiguration) : State :=
  init (rawState other stored)

/-- The method `clear()`. -/
def clear (s : State) : State :=
  init { s with mAccount := QMailAccount.fresh, mAccountConfig := ⟨[]⟩, mPassword := "" }

/-! ## Properties: getters and setters -/

/-- Getter `description()`. -/
def description (s : State) : String := s.mAccount.name

/-- Setter `setDescription(val)`. -/
def setDescription (s : State) (val : String) : State :=
  { s with mAccount := { s.mAccount with name := val } }

/-- Getter `enabled()`. -/
def enabled (s : State) : Bool := StatusFlag.Enabled ∈ s.mAccount.status

/-- Setter `setEnabled(val)`. -/
def setEnabled (s : State) (val : Bool) : State :=
  { s with mAccount := s.mAccount.setStatus StatusFlag.Enabled val }

/-- Getter `name()`. -/
def name (s : State) : String := s.mSendCfg.value s.mAccountConfig "username"

/-- Setter `setName(val)`. -/
def setName (s : State) (val : String) : State :=
  { s with mAccountConfig := s.mSendCfg.setValue s.mAccountConfig "username" val }

/-- Getter `address()`. -/
def address (s : State) : String := s.mSendCfg.value s.mAccountConfig "address"

/-- Setter `setAddress(val)`. -/
def setAddress (s : State) (val : String) : State :=
  { s with mAccountConfig := s.mSendCfg.setValue s.mAccountConfig "address" val }

/-- Getter `username()`: read-only property, returns username part of email address. -/
def username (s : State) : String := String.mk (QString.removeAtToEnd (address s).data)

/-- Getter `server()`: read-only property, returns server part of email address. -/
def server (s : State) : String := String.mk (QString.removeStartToAt (address s).data)

/-- Getter `password()`. -/
def password (s : State) : String := s.mPassword

/-- Setter `setPassword(val)`. -/
def setPassword (s : State) (val : String) : State := { s with mPassword := val }

/-- Getter `recvType()`. -/
def recvType (s : State) : String := externalRecvType s.mRecvType

/-- Setter `setRecvType(val)`: the receive service is replaced only when the
type really changes. -/
def setRecvType (s : State) (val : String) : State :=
  let newRecvType := internalRecvType val
  if newRecvType ≠ s.mRecvType then
    let cfg := s.mAccountConfig.removeServiceConfiguration s.mRecvType
    let cfg := cfg.addServiceConfiguration newRecvType
    let recvCfg := QMailServiceConfiguration.make cfg newRecvType
    let cfg := recvCfg.setType cfg "source"
    let cfg := recvCfg.setVersion cfg "100"
    { s with mAccountConfig := cfg, mRecvType := newRecvType, mRecvCfg := recvCfg }
  else s

/-- Getter `recvServer()`. -/
def recvServer (s : State) : String := s.mRecvCfg.value s.mAccountConfig "server"

/-- Setter `setRecvServer(val)`. -/
def setRecvServer (s : State) (val : String) : State :=
  { s with mAccountConfig := s.mRecvCfg.setValue s.mAccountConfig "server" val }

/-- Getter `recvPort()`. -/
def recvPort (s : State) : String := s.mRecvCfg.value s.mAccountConfig "port"

/-- Setter `setRecvPort(val)`. -/
def setRecvPort (s : State) (val : String) : State :=
  { s with mAccountConfig := s.mRecvCfg.setValue s.mAccountConfig "port" val }

/-- Getter `recvSecurity()`. -/
def recvSecurity (s : State) : String := s.mRecvCfg.value s.mAccountConfig "encryption"

/-- Setter `setRecvSecurity(val)`. -/
def setRecvSecurity (s : State) (val : String) : State :=
  { s with mAccountConfig := s.mRecvCfg.setValue s.mAccountConfig "encryption" val }

/-- Getter `recvUsername()`. -/
def recvUsername (s : State) : String := s.mRecvCfg.value s.mAccountConfig "username"

/-- Setter `setRecvUsername(val)`. -/
def setRecvUsername (s : State) (val : String) : State :=
  { s with mAccountConfig := s.mRecvCfg.setValue s.mAccountConfig "username" val }

/-- Getter `recvPassword()`. -/
def recvPassword (B : Base64) (s : State) : String :=
  B.decode (s.mRecvCfg.value s.mAccountConfig "password")

/-- Setter `setRecvPassword(val)`. -/
def setRecvPassword (B : Base64) (s : State) (val : String) : State :=
  { s with mAccountConfig := s.mRecvCfg.setValue s.mAccountConfig "password" (B.encode val) }

/-- Getter `sendServer()`. -/
def sendServer (s : State) : String := s.mSendCfg.value s.mAccountConfig "server"

/-- Setter `setSendServer(val)`. -/
def setSendServer (s : State) (val : String) : State :=
  { s with mAccountConfig := s.mSendCfg.setValue s.mAccountConfig "server" val }

/-- Getter `sendPort()`. -/
def sendPort (s : State) : String := s.mSendCfg.value s.mAccountConfig "port"

/-- Setter `setSendPort(val)`. -/
def setSendPort (s : State) (val : String) : State :=
  { s with mAccountConfig := s.mSendCfg.setValue s.mAccountConfig "port" val }

/-- Getter `sendAuth()`. -/
def sendAuth (s : State) : String := s.mSendCfg.value s.mAccountConfig "authentication"

/-- Setter `setSendAuth(val)`. -/
def setSendAuth (s : State) (val : String) : State :=
  { s with mAccountConfig := s.mSendCfg.setValue s.mAccountConfig "authentication" val }

/-- Getter `sendSecurity()`. -/
def sendSecurity (s : State) : String := s.mSendCfg.value s.mAccountConfig "encryption"

/-- Setter `setSendSecurity(val)`. -/
def setSendSecurity (s : State) (val : String) : State :=
  { s with mAccountConfig := s.mSendCfg.setValue s.mAccountConfig "encryption" val }

/-- Getter `sendUsername()`. -/
def sendUsername (s : State) : String := s.mSendCfg.value s.mAccountConfig "smtpusername"

/-- Setter `setSendUsername(val)`. -/
def setSendUsername (s : State) (val : String) : State :=
  { s with mAccountConfig := s.mSendCfg.setValue s.mAccountConfig "smtpusername" val }

/-- Getter `sendPassword()`. -/
def sendPassword (B : Base64) (s : State) : String :=
  B.decode (s.mSendCfg.value s.mAccountConfig "smtppassword")

/-- Setter `setSendPassword(val)`. -/
def setSendPassword (B : Base64) (s : State) (val : String) : State :=
  { s with mAccountConfig := s.mSendCfg.setValue s.mAccountConfig "smtppassword" (B.encode val) }

/-- Getter `preset()`. -/
def preset (s : State) : Int := QString.toInt (s.mAccount.customField "preset")

/-- Setter `setPreset(val)`. -/
def setPreset (s : State) (val : Int) : State :=
  { s with mAccount := s.mAccount.setCustomField "preset" (QString.number val) }

/-- Getter `errorMessage()`. -/
def errorMessage (s : State) : String := s.mErrorMessage

/-- Getter `errorCode()`. -/
def errorCode (s : State) : Int := s.mErrorCode

/-- Getter `accountId()`: the 64-bit identifier is returned as an `int`, which
keeps its low 32 bits read as a signed number. -/
def accountId (s : State) : Int :=
  if s.mAccount.id.isValid then
    let low := s.mAccount.id.toULongLong % 4294967296
    if low < 2147483648 then (low : Int) else (low : Int) - 4294967296
  else -1

/-- Setter `setAccountId(accId)`; `load` is the account the mail store holds
under an identifier. -/
def setAccountId (load : QMailAccountId → QMailAccount) (s : State) (accId : Int) : State :=
  let accountId : QMailAccountId := ⟨(accId % 18446744073709551616).toNat⟩
  if accountId.isValid then { s with mAccount := load accountId } else s

/-! ## Presets -/

/-- The method `applyPreset()`: one branch of the `switch` for each preset,
the setters called in the order of the source. -/
def applyPreset (P : PresetType) (B : Base64) (s : State) : State :=
  if preset s = P.mobilemePreset then
    let s := setRecvType s (externalRecvType "imap4")
    let s := setRecvServer s "mail.me.com"
    let s := setRecvPort s "993"
    let s := setRecvSecurity s (securityType "SSL")
    let s := setRecvUsername s (username s)
    let s := setRecvPassword B s (password s)
    let s := setSendServer s "smtp.me.com"
    let s := setSendPort s "587"
    let s := setSendSecurity s (securityType "SSL")
    let s := setSendAuth s (authorizationType "Login")
    let s := setSendUsername s (username s)
    setSendPassword B s (password s)
  else if preset s = P.gmailPreset then
    let s := setRecvType s (externalRecvType "imap4")
    let s := setRecvServer s "imap.gmail.com"
    let s := setRecvPort s "993"
    let s := setRecvSecurity s (securityType "SSL")
    let s := setRecvUsername s (address s)
    let s := setRecvPassword B s (password s)
    let s := setSendServer s "smtp.gmail.com"
    let s := setSendPort s "465"
    let s := setSendSecurity s (securityType "SSL")
    let s := setSendAuth s (authorizationType "Login")
    let s := setSendUsername s (address s)
    setSendPassword B s (password s)
  else if preset s = P.yahooPreset then
    let s := setRecvType s (externalRecvType "imap4")
    let s := setRecvServer s "imap.mail.yahoo.com"
    let s := setRecvPort s "993"
    let s := setRecvSecurity s (securityType "SSL")
    let s := setRecvUsername s (address s)
    let s := setRecvPassword B s (password s)
    let s := setSendServer s "smtp.mail.yahoo.com"
    let s := setSendPort s "465"
    let s := setSendSecurity s (securityType "SSL")
    let s := setSendAuth s (authorizationType "Login")
    let s := setSendUsername s (address s)
    setSendPassword B s (password s)
  else if preset s = P.aolPreset then
    let s := setRecvType s (externalRecvType "imap4")
    let s := setRecvServer s "imap.aol.com"
    let s := setRecvPort s "143"
    let s := setRecvSecurity s (securityType "none")
    let s := setRecvUsername s (username s)
    let s := setRecvPassword B s (password s)
    let s := setSendServer s "smtp.aol.com"
    let s := setSendPort s "587"
    let s := setSendSecurity s (securityType "none")
    let s := setSendAuth s (authorizationType "Login")
    let s := setSendUsername s (username s)
    setSendPassword B s (password s)
  else if preset s = P.mslivePreset then
    let s := setRecvType s (externalRecvType "pop3")
    let s := setRecvServer s "pop3.live.com"
    let s := setRecvPort s "995"
    let s := setRecvSecurity s (securityType "SSL")
    let s := setRecvUsername s (address s)
    let s := setRecvPassword B s (password s)
    let s := setSendServer s "smtp.live.com"
    let s := setSendPort s "587"
    let s := setSendSecurity s (securityType "TLS")
    let s := setSendAuth s (authorizationType "Login")
    let s := setSendUsername s (address s)
    setSendPassword B s (password s)
  else if preset s = P.noPreset then
    let s := setRecvType s (externalRecvType "imap4")
    let s := setRecvPort s "993"
    let s := setRecvSecurity s (securityType "SSL")
    let s := setRecvUsername s (username s)
    let s := setRecvPassword B s (password s)
    let s := setSendPort s "587"
    let s := setSendSecurity s (securityType "SSL")
    let s := setSendAuth s (authorizationType "Login")
    let s := setSendUsername s (username s)
    setSendPassword B s (password s)
  else s

/-! ## Saving, removing and testing -/

/-- The calls into the mail store made by `save()` and `remove()`:
`updateAccount` and `removeAccount` report success, `addAccount` gives the
identifier the store assigns to the new account, or `none` when it fails. -/
structure QMailStore where
  updateAccount : QMailAccount → QMailAccountConfiguration → Bool
  addAccount : QMailAccount → QMailAccountConfiguration → Option QMailAccountId
  removeAccount : QMailAccountId → Bool

/-- First part of `save()`: the status flags and the from-address set on
`mAccount` before the store is called. -/
def saveStatus (s : State) : State :=
  let a := s.mAccount
  let a := a.setStatus StatusFlag.UserEditable true
  let a := a.setStatus StatusFlag.UserRemovable true
  let a := a.setStatus StatusFlag.MessageSource true
  let a := a.setStatus StatusFlag.CanRetrieve true
  let a := a.setStatus StatusFlag.MessageSink true
  let a := a.setStatus StatusFlag.CanTransmit true
  let a := a.setStatus StatusFlag.Enabled true
  let a := a.setStatus StatusFlag.CanCreateFolders true
  let a := { a with fromAddress := address s }
  { s with mAccount := a }

/-- The method `save()`: the new state and the returned result. -/
def save (P : PresetType) (store : QMailStore) (s : State) : State × Bool :=
  let s := saveStatus s
  if s.mAccount.id.isValid then
    (s, store.updateAccount s.mAccount s.mAccountConfig)
  else
    let s := if preset s = P.noPreset then setDescription s (server s) else s
    match store.addAccount s.mAccount s.mAccountConfig with
    | some newId => ({ s with mAccount := { s.mAccount with id := newId } }, true)
    | none => (s, false)

/-- The method `remove()`: the new state and the returned result. -/
def remove (store : QMailStore) (s : State) : State × Bool :=
  if s.mAccount.id.isValid then
    ({ s with mAccount := { s.mAccount with id := ⟨0⟩ } }, store.removeAccount s.mAccount.id)
  else (s, false)

/-- The slot `testConfiguration()`. -/
def testConfiguration (s : State) : State × List Effect :=
  if s.mAccount.id.isValid then (s, [Effect.retrieveFolderList s.mAccount.id])
  else (s, [Effect.testFailed ServerType.InvalidAccount])

/-- The slot `activityChanged(activity)`, called with the sender of the signal:
the new state and what the slot calls and emits. -/
def activityChanged (sender : Sender) (activity : Activity) (s : State) : State × List Effect :=
  if sender = Sender.retrievalAction then
    let status := s.mRetrievalAction.status
    if activity = Activity.Successful then
      (s, [Effect.transmitMessages s.mAccount.id])
    else if activity = Activity.Failed then
      ({ s with mErrorMessage := status.text, mErrorCode := status.errorCode },
        [Effect.testFailed ServerType.IncomingServer])
    else (s, [])
  else if sender = Sender.transmitAction then
    let status := s.mTransmitAction.status
    if activity = Activity.Successful then
      (s, [Effect.testSucceeded])
    else if activity = Activity.Failed then
      ({ s with mErrorMessage := status.text, mErrorCode := status.errorCode },
        [Effect.testFailed ServerType.OutgoingServer])
    else (s, [])
  else (s, [])

/-! ## Reading and writing through the two handles

Every getter and setter of a configuration field is one of four operations:
a read or a write through the receive handle or through the send handle. -/

/-- Write through `mRecvCfg`. -/
def recvSet (s : State) (k v : String) : State :=
  { s with mAccountConfig := s.mRecvCfg.setValue s.mAccountConfig k v }

/-- Write through `mSendCfg`. -/
def sendSet (s : State) (k v : String) : State :=
  { s with mAccountConfig := s.mSendCfg.setValue s.mAccountConfig k v }

/-- Read through `mRecvCfg`. -/
def recvGet (s : State) (k : String) : String := s.mRecvCfg.value s.mAccountConfig k

/-- Read through `mSendCfg`. -/
def sendGet (s : State) (k : String) : String := s.mSendCfg.value s.mAccountConfig k

/-! ## The rows of the preset table -/

/-- What the getters return after a preset was applied: the receive type,
server, port and security, the send server, port, security and authentication,
and the user name used for both directions. -/
def presetRow (t : State) (recvT recvS recvP recvSec sendS sendP sendSec sendA user : String) :
    Prop :=
  recvType t = recvT ∧ recvServer t = recvS ∧ recvPort t = recvP ∧ recvSecurity t = recvSec ∧
  sendServer t = sendS ∧ sendPort t = sendP ∧ sendSecurity t = sendSec ∧ sendAuth t = sendA ∧
  recvUsername t = user ∧ sendUsername t = user

/-! ## Concrete states used to exercise the theorems -/

/-- The usual numbering of the presets. -/
def stdPresets : PresetType :=
  { noPreset := 0, mobilemePreset := 1, gmailPreset := 2, yahooPreset := 3, aolPreset := 4,
    mslivePreset := 5, distinct := by decide }

/-- The base64 alphabet. -/
def base64Alphabet : List Char :=
  "ABCDEFGHIJKLMNOPQRSTUVWXYZabcdefghijklmnopqrstuvwxyz0123456789+/".data

/-- The character of a six-bit value. -/
def sextet (n : Nat) : Char := base64Alphabet.getD n '='

/-- The six-bit value of a character of the alphabet. -/
def sextetValue (c : Char) : Option Nat :=
  if c ∈ base64Alphabet then some (base64Alphabet.indexOf c) else none

/-- Base64 of a list of bytes, padded with equals signs. -/
def encodeBytes : List Nat → List Char
  | [] => []
  | [a] => [sextet (a / 4), sextet (a % 4 * 16), '=', '=']
  | [a, b] => [sextet (a / 4), sextet (a % 4 * 16 + b / 16), sextet (b % 16 * 4), '=']
  | a :: b :: c :: rest =>
    sextet (a / 4) :: sextet (a % 4 * 16 + b / 16) :: sextet (b % 16 * 4 + c / 64) ::
      sextet (c % 64) :: encodeBytes rest

/-- The bytes of a base64 text, read four characters at a time. -/
def decodeChars : List Char → List Nat
  | a :: b :: c :: d :: rest =>
    match sextetValue a, sextetValue b with
    | some x, some y =>
      match sextetValue c with
      | none => [x * 4 + y / 16]
      | some z =>
        match sextetValue d with
        | none => [x * 4 + y / 16, y % 16 * 16 + z / 4]
        | some w => (x * 4 + y / 16) :: (y % 16 * 16 + z / 4) :: (z % 4 * 64 + w) ::
            decodeChars rest
    | _, _ => []
  | _ => []

/-- A concrete `Base64` helper: standard base64 of the Latin-1 bytes of a short
text (one line, no line breaks). -/
def Base64.standard : Base64 :=
  { encode := fun s => String.mk (encodeBytes (s.data.map (fun c => c.toNat % 256))),
    decode := fun s => String.mk ((decodeChars s.data).map Char.ofNat) }

/-- A freshly constructed account whose address was set. -/
def sampleAccount : State := setAddress new "user@example.org"

/-- An account switched to imap4 whose receive settings were all stored. -/
def configuredAccount : State :=
  setRecvPassword Base64.standard
    (setRecvUsername
      (setRecvSecurity (setRecvPort (setRecvServer (setRecvType new "1") "mail.example.org") "993")
        "1")
      "user")
    "secret"

/-! ## The reachable states

Every handle is made right after the service it points at was added, and the
receive service is never the smtp service.  The constructors establish this
and every method keeps it. -/

/-- Invariant of the member variables: both handles point at their service,
both services are configured, and the receive service is not the smtp one. -/
def Inv (s : State) : Prop :=
  s.mSendCfg = some "smtp" ∧ s.mRecvCfg = some s.mRecvType ∧
  "smtp" ∈ s.mAccountConfig.services ∧ s.mRecvType ∈ s.mAccountConfig.services ∧
  s.mRecvType ≠ "smtp"

instance (s : State) : Decidable (Inv s) := by
  unfold Inv
  infer_instance

/-- The states an `EmailAccount` object can be in: made by a constructor, then
changed by its methods or by a service action that changes its status. -/
inductive Reachable (P : PresetType) (B : Base64) : State → Prop
  | new : Reachable P B new
  | ofAccount (other : QMailAccount) (stored : QMailAccountConfiguration) :
      Reachable P B (ofAccount other stored)
  | clear {s : State} : Reachable P B s → Reachable P B (clear s)
  | save {s : State} (store : QMailStore) : Reachable P B s → Reachable P B (save P store s).1
  | remove {s : State} (store : QMailStore) : Reachable P B s → Reachable P B (remove store s).1
  | testConfiguration {s : State} : Reachable P B s → Reachable P B (testConfiguration s).1
  | activityChanged {s : State} (sender : Sender) (activity : Activity) :
      Reachable P B s → Reachable P B (activityChanged sender activity s).1
  | actionStatus {s : State} (r t : QMailServiceAction) :
      Reachable P B s → Reachable P B { s with mRetrievalAction := r, mTransmitAction := t }
  | applyPreset {s : State} : Reachable P B s → Reachable P B (applyPreset P B s)
  | setAccountId {s : State} (load : QMailAccountId → QMailAccount) (accId : Int) :
      Reachable P B s → Reachable P B (setAccountId load s accId)
  | setDescription {s : State} (v : String) : Reachable P B s → Reachable P B (setDescription s v)
  | setEnabled {s : State} (v : Bool) : Reachable P B s → Reachable P B (setEnabled s v)
  | setName {s : State} (v : String) : Reachable P B s → Reachable P B (setName s v)
  | setAddress {s : State} (v : String) : Reachable P B s → Reachable P B (setAddress s v)
  | setPassword {s : State} (v : String) : Reachable P B s → Reachable P B (setPassword s v)
  | setRecvType {s : State} (v : String) : Reachable P B s → Reachable P B (setRecvType s v)
  | setRecvServer {s : State} (v : String) : Reachable P B s → Reachable P B (setRecvServer s v)
  | setRecvPort {s : State} (v : String) : Reachable P B s → Reachable P B (setRecvPort s v)
  | setRecvSecurity {s : State} (v : String) :
      Reachable P B s → Reachable P B (setRecvSecurity s v)
  | setRecvUsername {s : State} (v : String) :
      Reachable P B s → Reachable P B (setRecvUsername s v)
  | setRecvPassword {s : State} (v : String) :
      Reachable P B s → Reachable P B (setRecvPassword B s v)
  | setSendServer {s : State} (v : String) : Reachable P B s → Reachable P B (setSendServer s v)
  | setSendPort {s : State} (v : String) : Reachable P B s → Reachable P B (setSendPort s v)
  | setSendAuth {s : State} (v : String) : Reachable P B s → Reachable P B (setSendAuth s v)
  | setSendSecurity {s : State} (v : String) :
      Reachable P B s → Reachable P B (setSendSecurity s v)
  | setSendUsername {s : State} (v : String) :
      Reachable P B s → Reachable P B (setSendUsername s v)
  | setSendPassword {s : State} (v : String) :
      Reachable P B s → Reachable P B (setSendPassword B s v)
  | setPreset {s : State} (v : Int) : Reachable P B s → Reachable P B (setPreset s v)

/-! ## Facts about the key/value store -/

theorem kvValue_kvSet (kv : KeyValues) (k v k' : String) :
    kvValue (kvSet kv k v) k' = if k = k' then v else kvValue kv k' := by
  induction kv with
  | nil => simp [kvSet, kvValue]
  | cons e rest ih =>
    obtain ⟨k0, v0⟩ := e
    by_cases h0 : k0 = k
    · subst h0
      by_cases h1 : k0 = k' <;> simp [kvSet, kvValue, h1]
    · by_cases h1 : k0 = k'
      · subst h1
        have : ¬ k = k0 := fun h => h0 h.symm
        simp [kvSet, kvValue, h0, this]
      · simp [kvSet, kvValue, h0, h1, ih]

namespace QMailAccountConfiguration

theorem map_fst_modifyService (es : List (String × KeyValues)) (svc : String)
    (f : KeyValues → KeyValues) : (modifyService es svc f).map Prod.fst = es.map Prod.fst := by
  induction es with
  | nil => rfl
  | cons e rest ih =>
    obtain ⟨n, kv⟩ := e
    by_cases h : n = svc <;> simp [modifyService, h, ih]

theorem lookupService_modifyService (es : List (String × KeyValues)) (svc : String)
    (f : KeyValues → KeyValues) (x : String) :
    lookupService (modifyService es svc f) x =
      if svc = x ∧ svc ∈ es.map Prod.fst then f (lookupService es x) else lookupService es x := by
  induction es with
  | nil => simp [modifyService, lookupService]
  | cons e rest ih =>
    obtain ⟨n, kv⟩ := e
    by_cases h : n = svc
    · subst h
      by_cases hx : n = x
      · simp [modifyService, lookupService, hx]
      · simp [modifyService, lookupService, hx]
    · have h' : ¬ svc = n := fun e => h e.symm
      by_cases hx : n = x
      · subst hx
        simp [modifyService, lookupService, h, h']
      · by_cases hs : svc = x
        · subst hs
          simp [modifyService, lookupService, h, ih, h', -List.mem_map]
        · simp [modifyService, lookupService, h, hx, ih, hs]

theorem lookupService_of_not_mem (es : List (String × KeyValues)) (x : String)
    (h : x ∉ es.map Prod.fst) : lookupService es x = [] := by
  induction es with
  | nil => rfl
  | cons e rest ih =>
    obtain ⟨n, kv⟩ := e
    simp only [List.map_cons, List.mem_cons, not_or] at h
    have hn : ¬ n = x := fun e => h.1 e.symm
    simp [lookupService, hn, ih h.2]

theorem lookupService_append (es fs : List (String × KeyValues)) (x : String) :
    lookupService (es ++ fs) x =
      if x ∈ es.map Prod.fst then lookupService es x else lookupService fs x := by
  induction es with
  | nil => simp
  | cons e rest ih =>
    obtain ⟨n, kv⟩ := e
    by_cases hn : n = x
    · subst hn
      simp [lookupService]
    · have hn' : ¬ x = n := fun e => hn e.symm
      simp [lookupService, hn, hn', ih, -List.mem_map]

theorem filter_ne_cons (es : List (String × KeyValues)) (svc n : String) (kv : KeyValues) :
    List.filter (fun e => e.1 ≠ svc) ((n, kv) :: es) =
      if n = svc then List.filter (fun e => e.1 ≠ svc) es
      else (n, kv) :: List.filter (fun e => e.1 ≠ svc) es := by
  by_cases h : n = svc <;> simp [List.filter, h]

theorem lookupService_filter (es : List (String × KeyValues)) (svc x : String) (h : x ≠ svc) :
    lookupService (es.filter (fun e => e.1 ≠ svc)) x = lookupService es x := by
  induction es with
  | nil => rfl
  | cons e rest ih =>
    obtain ⟨n, kv⟩ := e
    rw [filter_ne_cons]
    by_cases hn : n = svc
    · subst hn
      have hx : ¬ n = x := fun e => h e.symm
      rw [if_pos rfl, ih]
      simp [lookupService, hx]
    · rw [if_neg hn]
      by_cases hx : n = x
      · simp [lookupService, hx]
      · rw [lookupService, lookupService, if_neg hx, if_neg hx, ih]

@[simp] theorem services_setServiceValue (c : QMailAccountConfiguration) (svc k v : String) :
    (c.setServiceValue svc k v).services = c.services := by
  simp [setServiceValue, services, map_fst_modifyService]

theorem serviceValue_setServiceValue (c : QMailAccountConfiguration) (svc k v x k' : String) :
    (c.setServiceValue svc k v).serviceValue x k' =
      if svc = x ∧ k = k' ∧ svc ∈ c.services then v else c.serviceValue x k' := by
  simp only [serviceValue, setServiceValue, lookupService_modifyService, services]
  by_cases h1 : svc = x ∧ svc ∈ c.entries.map Prod.fst
  · rw [if_pos h1, kvValue_kvSet]
    by_cases h2 : k = k'
    · rw [if_pos h2, if_pos ⟨h1.1, h2, h1.2⟩]
    · rw [if_neg h2, if_neg (fun h => h2 h.2.1)]
  · rw [if_neg h1]
    have : ¬ (svc = x ∧ k = k' ∧ svc ∈ List.map Prod.fst c.entries) :=
      fun h => h1 ⟨h.1, h.2.2⟩
    rw [if_neg this]

theorem mem_services_addServiceConfiguration (c : QMailAccountConfiguration) (svc x : String) :
    x ∈ (c.addServiceConfiguration svc).services ↔ x = svc ∨ x ∈ c.services := by
  unfold addServiceConfiguration
  by_cases h : svc ∈ c.services
  · rw [if_pos h]
    constructor
    · exact fun hx => Or.inr hx
    · rintro (hx | hx)
      · exact hx ▸ h
      · exact hx
  · rw [if_neg h]
    simp [services, or_comm]

@[simp] theorem serviceValue_addServiceConfiguration (c : QMailAccountConfiguration)
    (svc x k : String) :
    (c.addServiceConfiguration svc).serviceValue x k = c.serviceValue x k := by
  unfold addServiceConfiguration
  by_cases h : svc ∈ c.services
  · rw [if_pos h]
  · rw [if_neg h]
    simp only [serviceValue, lookupService_append]
    by_cases hx : x ∈ c.entries.map Prod.fst
    · rw [if_pos hx]
    · rw [if_neg hx, lookupService_of_not_mem _ _ hx]
      by_cases hs : svc = x <;> simp [lookupService, hs]

theorem mem_services_removeServiceConfiguration (c : QMailAccountConfiguration)
    (svc x : String) :
    x ∈ (c.removeServiceConfiguration svc).services ↔ x ≠ svc ∧ x ∈ c.services := by
  simp only [removeServiceConfiguration, services, List.mem_map, List.mem_filter]
  constructor
  · rintro ⟨e, ⟨he, hne⟩, rfl⟩
    exact ⟨by simpa using hne, e, he, rfl⟩
  · rintro ⟨hne, e, he, rfl⟩
    exact ⟨e, ⟨he, by simpa using hne⟩, rfl⟩

theorem serviceValue_removeServiceConfiguration (c : QMailAccountConfiguration)
    (svc x k : String) (h : x ≠ svc) :
    (c.removeServiceConfiguration svc).serviceValue x k = c.serviceValue x k := by
  simp only [serviceValue, removeServiceConfiguration, lookupService_filter _ _ _ h]

end QMailAccountConfiguration

namespace QMailServiceConfiguration

@[simp] theorem services_setValue (h : QMailServiceConfiguration)
    (c : QMailAccountConfiguration) (k v : String) :
    (h.setValue c k v).services = c.services := by
  cases h <;> simp [setValue]

@[simp] theorem services_setType (h : QMailServiceConfiguration)
    (c : QMailAccountConfiguration) (v : String) :
    (h.setType c v).services = c.services := by
  simp [setType]

@[simp] theorem services_setVersion (h : QMailServiceConfiguration)
    (c : QMailAccountConfiguration) (v : String) :
    (h.setVersion c v).services = c.services := by
  simp [setVersion]

theorem make_of_mem (c : QMailAccountConfiguration) (svc : String) (h : svc ∈ c.services) :
    make c svc = some svc := by
  simp [make, h]

end QMailServiceConfiguration

/-! ## The invariant holds in every reachable state -/

theorem internalRecvType_ne_smtp (v : String) : internalRecvType v ≠ "smtp" := by
  unfold internalRecvType
  split
  · decide
  · split <;> decide

theorem Inv_init (s : State) : Inv (init s) := by
  unfold init
  by_cases h1 : "qmfstoragemanager" ∈ s.mAccountConfig.services <;>
  by_cases h2 : "smtp" ∈ s.mAccountConfig.services <;>
  by_cases h3 : "imap4" ∈ s.mAccountConfig.services <;>
  by_cases h4 : "pop3" ∈ s.mAccountConfig.services <;>
  simp [Inv, h1, h2, h3, h4, QMailServiceConfiguration.make,
    QMailAccountConfiguration.mem_services_addServiceConfiguration]

theorem Inv_recvSet (s : State) (k v : String) : Inv (recvSet s k v) ↔ Inv s := by
  simp [Inv, recvSet]

theorem Inv_sendSet (s : State) (k v : String) : Inv (sendSet s k v) ↔ Inv s := by
  simp [Inv, sendSet]

theorem recvGet_recvSet (s : State) (h : Inv s) (k v k' : String) :
    recvGet (recvSet s k v) k' = if k = k' then v else recvGet s k' := by
  obtain ⟨_, h2, _, h4, _⟩ := h
  simp [recvGet, recvSet, h2, QMailServiceConfiguration.value,
    QMailServiceConfiguration.setValue, QMailAccountConfiguration.serviceValue_setServiceValue, h4]

theorem sendGet_sendSet (s : State) (h : Inv s) (k v k' : String) :
    sendGet (sendSet s k v) k' = if k = k' then v else sendGet s k' := by
  obtain ⟨h1, _, h3, _, _⟩ := h
  simp [sendGet, sendSet, h1, QMailServiceConfiguration.value,
    QMailServiceConfiguration.setValue, QMailAccountConfiguration.serviceValue_setServiceValue, h3]

theorem recvGet_sendSet (s : State) (h : Inv s) (k v k' : String) :
    recvGet (sendSet s k v) k' = recvGet s k' := by
  obtain ⟨h1, h2, _, _, h5⟩ := h
  have h5' : ¬ "smtp" = s.mRecvType := fun e => h5 e.symm
  simp [recvGet, sendSet, h1, h2, QMailServiceConfiguration.value,
    QMailServiceConfiguration.setValue, QMailAccountConfiguration.serviceValue_setServiceValue, h5']

theorem sendGet_recvSet (s : State) (h : Inv s) (k v k' : String) :
    sendGet (recvSet s k v) k' = sendGet s k' := by
  obtain ⟨h1, h2, _, _, h5⟩ := h
  simp [sendGet, recvSet, h1, h2, QMailServiceConfiguration.value,
    QMailServiceConfiguration.setValue, QMailAccountConfiguration.serviceValue_setServiceValue, h5]

theorem Inv_setRecvType (s : State) (h : Inv s) (v : String) : Inv (setRecvType s v) := by
  unfold setRecvType
  by_cases hv : internalRecvType v = s.mRecvType
  · simpa [hv] using h
  · obtain ⟨h1, _, h3, _, h5⟩ := h
    have hn : ¬ "smtp" = s.mRecvType := fun e => h5 e.symm
    simp [hv, Inv, h1, h3, hn, QMailServiceConfiguration.make, internalRecvType_ne_smtp,
      QMailAccountConfiguration.mem_services_addServiceConfiguration,
      QMailAccountConfiguration.mem_services_removeServiceConfiguration]

theorem mRecvType_setRecvType (s : State) (v : String) :
    (setRecvType s v).mRecvType = internalRecvType v := by
  unfold setRecvType
  by_cases hv : internalRecvType v = s.mRecvType <;> simp [hv]

theorem sendGet_setRecvType (s : State) (h : Inv s) (v k : String) :
    sendGet (setRecvType s v) k = sendGet s k := by
  unfold setRecvType
  by_cases hv : internalRecvType v = s.mRecvType
  · simp [hv]
  · obtain ⟨h1, _, h3, _, h5⟩ := h
    have hn : ¬ "smtp" = s.mRecvType := fun e => h5 e.symm
    have hi : ¬ internalRecvType v = "smtp" := internalRecvType_ne_smtp v
    simp [hv, sendGet, h1, QMailServiceConfiguration.make, QMailServiceConfiguration.value,
      QMailServiceConfiguration.setValue, QMailServiceConfiguration.setType,
      QMailServiceConfiguration.setVersion,
      QMailAccountConfiguration.serviceValue_setServiceValue, hi,
      QMailAccountConfiguration.mem_services_addServiceConfiguration,
      QMailAccountConfiguration.serviceValue_removeServiceConfiguration _ _ _ _
        (Ne.symm h5)]

/-! ## Setters written as handle operations, and what they keep -/

theorem Inv_setMAccount (s : State) (a : QMailAccount) :
    Inv { s with mAccount := a } ↔ Inv s := Iff.rfl

theorem Inv_setPassword (s : State) (v : String) : Inv (setPassword s v) ↔ Inv s := Iff.rfl

theorem Inv_setDescription (s : State) (v : String) : Inv (setDescription s v) ↔ Inv s :=
  Iff.rfl

theorem Inv_setEnabled (s : State) (v : Bool) : Inv (setEnabled s v) ↔ Inv s := Iff.rfl

theorem Inv_setPreset (s : State) (v : Int) : Inv (setPreset s v) ↔ Inv s := Iff.rfl

theorem Inv_clear (s : State) : Inv (clear s) := Inv_init _

theorem Inv_new : Inv new := Inv_init _

theorem Inv_ofAccount (other : QMailAccount) (stored : QMailAccountConfiguration) :
    Inv (ofAccount other stored) := Inv_init _

theorem Inv_setAccountId (load : QMailAccountId → QMailAccount) (s : State) (accId : Int)
    (h : Inv s) : Inv (setAccountId load s accId) := by
  unfold setAccountId
  simp only []
  split
  · exact h
  · exact h

theorem Inv_remove (store : QMailStore) (s : State) (h : Inv s) : Inv (remove store s).1 := by
  unfold remove
  split
  · exact h
  · exact h

theorem Inv_testConfiguration (s : State) (h : Inv s) : Inv (testConfiguration s).1 := by
  unfold testConfiguration
  split
  · exact h
  · exact h

theorem Inv_activityChanged (sender : Sender) (activity : Activity) (s : State) (h : Inv s) :
    Inv (activityChanged sender activity s).1 := by
  unfold activityChanged
  simp only []
  split_ifs <;> exact h

/-! ## The address parts -/

namespace QString

theorem removeAtToEnd_append (l d : List Char) (hl : '@' ∉ l) :
    removeAtToEnd (l ++ '@' :: d) = l := by
  induction l with
  | nil => simp [removeAtToEnd]
  | cons c cs ih =>
    simp only [List.mem_cons, not_or] at hl
    have hc : ¬ c = '@' := fun e => hl.1 e.symm
    simp [removeAtToEnd, hc, ih hl.2]

theorem removeAtToEnd_of_not_mem (cs : List Char) (h : '@' ∉ cs) : removeAtToEnd cs = cs := by
  induction cs with
  | nil => rfl
  | cons c cs ih =>
    simp only [List.mem_cons, not_or] at h
    have hc : ¬ c = '@' := fun e => h.1 e.symm
    simp [removeAtToEnd, hc, ih h.2]

theorem removeStartToAt_of_not_mem (cs : List Char) (h : '@' ∉ cs) :
    removeStartToAt cs = cs := by
  cases cs with
  | nil => rfl
  | cons c cs =>
    simp only [List.mem_cons, not_or] at h
    have hc : ¬ c = '@' := fun e => h.1 e.symm
    simp [removeStartToAt, hc, h.2]

theorem removeStartToAt_append (l d : List Char) (hd : '@' ∉ d) :
    removeStartToAt (l ++ '@' :: d) = d := by
  induction l with
  | nil => simp [removeStartToAt, hd]
  | cons c cs ih =>
    have hm : '@' ∈ cs ++ '@' :: d := by simp
    rw [List.cons_append, removeStartToAt, if_pos hm, ih]

end QString

/-! ## What setting a status flag keeps -/

namespace QMailAccount

@[simp] theorem name_setStatus (a : QMailAccount) (f : StatusFlag) (b : Bool) :
    (a.setStatus f b).name = a.name := by
  unfold setStatus
  split
  · split <;> rfl
  · rfl

@[simp] theorem id_setStatus (a : QMailAccount) (f : StatusFlag) (b : Bool) :
    (a.setStatus f b).id = a.id := by
  unfold setStatus
  split
  · split <;> rfl
  · rfl

@[simp] theorem customFields_setStatus (a : QMailAccount) (f : StatusFlag) (b : Bool) :
    (a.setStatus f b).customFields = a.customFields := by
  unfold setStatus
  split
  · split <;> rfl
  · rfl

end QMailAccount

theorem saveStatus_keeps (s : State) :
    (saveStatus s).mAccount.name = s.mAccount.name ∧
    (saveStatus s).mAccount.id = s.mAccount.id ∧
    (saveStatus s).mAccount.customFields = s.mAccount.customFields ∧
    (saveStatus s).mAccountConfig = s.mAccountConfig ∧
    (saveStatus s).mSendCfg = s.mSendCfg ∧
    (saveStatus s).mRecvCfg = s.mRecvCfg ∧
    (saveStatus s).mRecvType = s.mRecvType := by
  simp [saveStatus]

theorem Inv_save (P : PresetType) (store : QMailStore) (s : State) (h : Inv s) :
    Inv (save P store s).1 := by
  obtain ⟨_, _, _, hcfg, hsend, hrecv, htype⟩ := saveStatus_keeps s
  have h0 : Inv (saveStatus s) := by
    unfold Inv
    rw [hcfg, hsend, hrecv, htype]
    exact h
  unfold save
  simp only []
  generalize saveStatus s = t at h0 ⊢
  split
  · exact h0
  · split <;> split <;> exact h0

/-! ## Every setter keeps the invariant -/

theorem Inv_setName (s : State) (v : String) : Inv (setName s v) ↔ Inv s :=
  Inv_sendSet s "username" v

theorem Inv_setAddress (s : State) (v : String) : Inv (setAddress s v) ↔ Inv s :=
  Inv_sendSet s "address" v

theorem Inv_setRecvServer (s : State) (v : String) : Inv (setRecvServer s v) ↔ Inv s :=
  Inv_recvSet s "server" v

theorem Inv_setRecvPort (s : State) (v : String) : Inv (setRecvPort s v) ↔ Inv s :=
  Inv_recvSet s "port" v

theorem Inv_setRecvSecurity (s : State) (v : String) : Inv (setRecvSecurity s v) ↔ Inv s :=
  Inv_recvSet s "encryption" v

theorem Inv_setRecvUsername (s : State) (v : String) : Inv (setRecvUsername s v) ↔ Inv s :=
  Inv_recvSet s "username" v

theorem Inv_setRecvPassword (B : Base64) (s : State) (v : String) :
    Inv (setRecvPassword B s v) ↔ Inv s := Inv_recvSet s "password" (B.encode v)

theorem Inv_setSendServer (s : State) (v : String) : Inv (setSendServer s v) ↔ Inv s :=
  Inv_sendSet s "server" v

theorem Inv_setSendPort (s : State) (v : String) : Inv (setSendPort s v) ↔ Inv s :=
  Inv_sendSet s "port" v

theorem Inv_setSendAuth (s : State) (v : String) : Inv (setSendAuth s v) ↔ Inv s :=
  Inv_sendSet s "authentication" v

theorem Inv_setSendSecurity (s : State) (v : String) : Inv (setSendSecurity s v) ↔ Inv s :=
  Inv_sendSet s "encryption" v

theorem Inv_setSendUsername (s : State) (v : String) : Inv (setSendUsername s v) ↔ Inv s :=
  Inv_sendSet s "smtpusername" v

theorem Inv_setSendPassword (B : Base64) (s : State) (v : String) :
    Inv (setSendPassword B s v) ↔ Inv s := Inv_sendSet s "smtppassword" (B.encode v)

theorem Inv_applyPreset (P : PresetType) (B : Base64) (s : State) (h : Inv s) :
    Inv (applyPreset P B s) := by
  unfold applyPreset
  simp only []
  split_ifs
  all_goals first
    | exact h
    | (simp only [Inv_setRecvServer, Inv_setRecvPort, Inv_setRecvSecurity, Inv_setRecvUsername, Inv_setRecvPassword, Inv_setSendServer, Inv_setSendPort, Inv_setSendAuth, Inv_setSendSecurity, Inv_setSendUsername, Inv_setSendPassword]
       exact Inv_setRecvType s h _)

/-- The invariant holds in every state an account object can be in. -/
theorem Inv_of_reachable (P : PresetType) (B : Base64) (s : State) (h : Reachable P B s) :
    Inv s := by
  induction h with
  | new => exact Inv_new
  | ofAccount other stored => exact Inv_ofAccount other stored
  | clear _ _ => exact Inv_clear _
  | save store _ ih => exact Inv_save P store _ ih
  | remove store _ ih => exact Inv_remove store _ ih
  | testConfiguration _ ih => exact Inv_testConfiguration _ ih
  | activityChanged sender activity _ ih => exact Inv_activityChanged sender activity _ ih
  | actionStatus r t _ ih => exact ih
  | applyPreset _ ih => exact Inv_applyPreset P B _ ih
  | setAccountId load accId _ ih => exact Inv_setAccountId load _ accId ih
  | setDescription v _ ih => exact ih
  | setEnabled v _ ih => exact ih
  | setName v _ ih => exact (Inv_setName _ v).2 ih
  | setAddress v _ ih => exact (Inv_setAddress _ v).2 ih
  | setPassword v _ ih => exact ih
  | setRecvType v _ ih => exact Inv_setRecvType _ ih v
  | setRecvServer v _ ih => exact (Inv_setRecvServer _ v).2 ih
  | setRecvPort v _ ih => exact (Inv_setRecvPort _ v).2 ih
  | setRecvSecurity v _ ih => exact (Inv_setRecvSecurity _ v).2 ih
  | setRecvUsername v _ ih => exact (Inv_setRecvUsername _ v).2 ih
  | setRecvPassword v _ ih => exact (Inv_setRecvPassword B _ v).2 ih
  | setSendServer v _ ih => exact (Inv_setSendServer _ v).2 ih
  | setSendPort v _ ih => exact (Inv_setSendPort _ v).2 ih
  | setSendAuth v _ ih => exact (Inv_setSendAuth _ v).2 ih
  | setSendSecurity v _ ih => exact (Inv_setSendSecurity _ v).2 ih
  | setSendUsername v _ ih => exact (Inv_setSendUsername _ v).2 ih
  | setSendPassword v _ ih => exact (Inv_setSendPassword B _ v).2 ih
  | setPreset v _ ih => exact ih

/-! ## The branches of applyPreset -/

theorem address_recvSet (s : State) (h : Inv s) (k v : String) :
    address (recvSet s k v) = address s := sendGet_recvSet s h k v "address"

theorem address_sendSet (s : State) (h : Inv s) (k v : String) (hk : k ≠ "address") :
    address (sendSet s k v) = address s := by
  have := sendGet_sendSet s h k v "address"
  rw [if_neg hk] at this
  exact this

theorem username_recvSet (s : State) (h : Inv s) (k v : String) :
    username (recvSet s k v) = username s := by
  unfold username
  rw [address_recvSet s h]

theorem username_sendSet (s : State) (h : Inv s) (k v : String) (hk : k ≠ "address") :
    username (sendSet s k v) = username s := by
  unfold username
  rw [address_sendSet s h k v hk]

theorem block_spec (B : Base64) (t : State) (ht : Inv t) (u : State → String)
    (hur : ∀ x k v, Inv x → u (recvSet x k v) = u x)
    (hus : ∀ x k v, Inv x → k ≠ "address" → u (sendSet x k v) = u x)
    (rs rp rsec ss sp ssec sa : String) :
    let s1 := setRecvServer t rs
    let s2 := setRecvPort s1 rp
    let s3 := setRecvSecurity s2 rsec
    let s4 := setRecvUsername s3 (u s3)
    let s5 := setRecvPassword B s4 (password s4)
    let s6 := setSendServer s5 ss
    let s7 := setSendPort s6 sp
    let s8 := setSendSecurity s7 ssec
    let s9 := setSendAuth s8 sa
    let s10 := setSendUsername s9 (u s9)
    let s11 := setSendPassword B s10 (password s10)
    presetRow s11 (externalRecvType t.mRecvType) rs rp rsec ss sp ssec sa (u t) ∧
      address s11 = address t ∧ s11.mAccount = t.mAccount ∧ Inv s11 := by
  intro s1 s2 s3 s4 s5 s6 s7 s8 s9 s10 s11
  have e1 : s1 = recvSet t "server" rs := rfl
  have e2 : s2 = recvSet s1 "port" rp := rfl
  have e3 : s3 = recvSet s2 "encryption" rsec := rfl
  have e4 : s4 = recvSet s3 "username" (u s3) := rfl
  have e5 : s5 = recvSet s4 "password" (B.encode (password s4)) := rfl
  have e6 : s6 = sendSet s5 "server" ss := rfl
  have e7 : s7 = sendSet s6 "port" sp := rfl
  have e8 : s8 = sendSet s7 "encryption" ssec := rfl
  have e9 : s9 = sendSet s8 "authentication" sa := rfl
  have e10 : s10 = sendSet s9 "smtpusername" (u s9) := rfl
  have e11 : s11 = sendSet s10 "smtppassword" (B.encode (password s10)) := rfl
  clear_value s1 s2 s3 s4 s5 s6 s7 s8 s9 s10 s11
  have i1 : Inv s1 := e1 ▸ (Inv_recvSet _ _ _).2 ht
  have i2 : Inv s2 := e2 ▸ (Inv_recvSet _ _ _).2 i1
  have i3 : Inv s3 := e3 ▸ (Inv_recvSet _ _ _).2 i2
  have i4 : Inv s4 := e4 ▸ (Inv_recvSet _ _ _).2 i3
  have i5 : Inv s5 := e5 ▸ (Inv_recvSet _ _ _).2 i4
  have i6 : Inv s6 := e6 ▸ (Inv_sendSet _ _ _).2 i5
  have i7 : Inv s7 := e7 ▸ (Inv_sendSet _ _ _).2 i6
  have i8 : Inv s8 := e8 ▸ (Inv_sendSet _ _ _).2 i7
  have i9 : Inv s9 := e9 ▸ (Inv_sendSet _ _ _).2 i8
  have i10 : Inv s10 := e10 ▸ (Inv_sendSet _ _ _).2 i9
  have i11 : Inv s11 := e11 ▸ (Inv_sendSet _ _ _).2 i10
  have u3 : u s3 = u t := by rw [e3, hur _ _ _ i2, e2, hur _ _ _ i1, e1, hur _ _ _ ht]
  have u9 : u s9 = u t := by
    rw [e9, hus _ _ _ i8 (by decide), e8, hus _ _ _ i7 (by decide), e7,
      hus _ _ _ i6 (by decide), e6, hus _ _ _ i5 (by decide), e5, hur _ _ _ i4, e4,
      hur _ _ _ i3, u3]
  have r11 : ∀ k, recvGet s11 k = recvGet s5 k := fun k => by
    rw [e11, recvGet_sendSet _ i10, e10, recvGet_sendSet _ i9, e9, recvGet_sendSet _ i8, e8,
      recvGet_sendSet _ i7, e7, recvGet_sendSet _ i6, e6, recvGet_sendSet _ i5]
  have a11 : address s11 = address t := by
    rw [e11, address_sendSet _ i10 _ _ (by decide), e10, address_sendSet _ i9 _ _ (by decide),
      e9, address_sendSet _ i8 _ _ (by decide), e8, address_sendSet _ i7 _ _ (by decide), e7,
      address_sendSet _ i6 _ _ (by decide), e6, address_sendSet _ i5 _ _ (by decide), e5,
      address_recvSet _ i4, e4, address_recvSet _ i3, e3, address_recvSet _ i2, e2,
      address_recvSet _ i1, e1, address_recvSet _ ht]
  have m11 : s11.mAccount = t.mAccount ∧ s11.mRecvType = t.mRecvType := by
    subst e11 e10 e9 e8 e7 e6 e5 e4 e3 e2 e1
    exact ⟨rfl, rfl⟩
  refine ⟨⟨?_, ?_, ?_, ?_, ?_, ?_, ?_, ?_, ?_, ?_⟩, a11, m11.1, i11⟩
  · rw [recvType, m11.2]
  · show recvGet s11 "server" = rs
    rw [r11, e5, recvGet_recvSet _ i4, if_neg (by decide), e4, recvGet_recvSet _ i3,
      if_neg (by decide), e3, recvGet_recvSet _ i2, if_neg (by decide), e2,
      recvGet_recvSet _ i1, if_neg (by decide), e1, recvGet_recvSet _ ht, if_pos rfl]
  · show recvGet s11 "port" = rp
    rw [r11, e5, recvGet_recvSet _ i4, if_neg (by decide), e4, recvGet_recvSet _ i3,
      if_neg (by decide), e3, recvGet_recvSet _ i2, if_neg (by decide), e2,
      recvGet_recvSet _ i1, if_pos rfl]
  · show recvGet s11 "encryption" = rsec
    rw [r11, e5, recvGet_recvSet _ i4, if_neg (by decide), e4, recvGet_recvSet _ i3,
      if_neg (by decide), e3, recvGet_recvSet _ i2, if_pos rfl]
  · show sendGet s11 "server" = ss
    rw [e11, sendGet_sendSet _ i10, if_neg (by decide), e10, sendGet_sendSet _ i9,
      if_neg (by decide), e9, sendGet_sendSet _ i8, if_neg (by decide), e8,
      sendGet_sendSet _ i7, if_neg (by decide), e7, sendGet_sendSet _ i6, if_neg (by decide),
      e6, sendGet_sendSet _ i5, if_pos rfl]
  · show sendGet s11 "port" = sp
    rw [e11, sendGet_sendSet _ i10, if_neg (by decide), e10, sendGet_sendSet _ i9,
      if_neg (by decide), e9, sendGet_sendSet _ i8, if_neg (by decide), e8,
      sendGet_sendSet _ i7, if_neg (by decide), e7, sendGet_sendSet _ i6, if_pos rfl]
  · show sendGet s11 "encryption" = ssec
    rw [e11, sendGet_sendSet _ i10, if_neg (by decide), e10, sendGet_sendSet _ i9,
      if_neg (by decide), e9, sendGet_sendSet _ i8, if_neg (by decide), e8,
      sendGet_sendSet _ i7, if_pos rfl]
  · show sendGet s11 "authentication" = sa
    rw [e11, sendGet_sendSet _ i10, if_neg (by decide), e10, sendGet_sendSet _ i9,
      if_neg (by decide), e9, sendGet_sendSet _ i8, if_pos rfl]
  · show recvGet s11 "username" = u t
    rw [r11, e5, recvGet_recvSet _ i4, if_neg (by decide), e4, recvGet_recvSet _ i3,
      if_pos rfl, u3]
  · show sendGet s11 "smtpusername" = u t
    rw [e11, sendGet_sendSet _ i10, if_neg (by decide), e10, sendGet_sendSet _ i9, if_pos rfl,
      u9]

theorem mAccount_setRecvType (s : State) (v : String) :
    (setRecvType s v).mAccount = s.mAccount := by
  unfold setRecvType
  by_cases hv : internalRecvType v = s.mRecvType <;> simp [hv]

theorem address_setRecvType (s : State) (h : Inv s) (v : String) :
    address (setRecvType s v) = address s := sendGet_setRecvType s h v "address"

theorem distinct_presets (P : PresetType) :
    P.mobilemePreset ≠ P.gmailPreset ∧ P.mobilemePreset ≠ P.yahooPreset ∧
    P.mobilemePreset ≠ P.aolPreset ∧ P.mobilemePreset ≠ P.mslivePreset ∧
    P.gmailPreset ≠ P.yahooPreset ∧ P.gmailPreset ≠ P.aolPreset ∧
    P.gmailPreset ≠ P.mslivePreset ∧ P.yahooPreset ≠ P.aolPreset ∧
    P.yahooPreset ≠ P.mslivePreset ∧ P.aolPreset ≠ P.mslivePreset := by
  have h := P.distinct
  simp only [List.nodup_cons, List.mem_cons, List.mem_singleton, not_or] at h
  obtain ⟨_, ⟨h1, h2, h3, h4⟩, ⟨h5, h6, h7⟩, ⟨h8, h9⟩, h10, _⟩ := h
  exact ⟨h1, h2, h3, h4.1, h5, h6, h7.1, h8, h9.1, h10.1⟩

/-- One branch of `applyPreset()` that sets both servers: the getters after the
setters of the branch were called on `s`. -/
theorem branch_spec (B : Base64) (s : State) (h : Inv s) (internal : String)
    (hint : internal = "pop3" ∨ internal = "imap4") (u : State → String)
    (hu : u = username ∨ u = address) (rs rp rsec ss sp ssec sa : String) :
    let s0 := setRecvType s (externalRecvType internal)
    let s1 := setRecvServer s0 rs
    let s2 := setRecvPort s1 rp
    let s3 := setRecvSecurity s2 rsec
    let s4 := setRecvUsername s3 (u s3)
    let s5 := setRecvPassword B s4 (password s4)
    let s6 := setSendServer s5 ss
    let s7 := setSendPort s6 sp
    let s8 := setSendSecurity s7 ssec
    let s9 := setSendAuth s8 sa
    let s10 := setSendUsername s9 (u s9)
    let s11 := setSendPassword B s10 (password s10)
    presetRow s11 (externalRecvType internal) rs rp rsec ss sp ssec sa (u s11) := by
  intro s0
  have i0 : Inv s0 := Inv_setRecvType s h _
  have t0 : s0.mRecvType = internal := by
    show (setRecvType s (externalRecvType internal)).mRecvType = internal
    rw [mRecvType_setRecvType]
    rcases hint with e | e <;> rw [e] <;> decide
  have hur : ∀ x k v, Inv x → u (recvSet x k v) = u x := by
    intro x k v hx
    rcases hu with e | e <;> rw [e]
    · exact username_recvSet x hx k v
    · exact address_recvSet x hx k v
  have hus : ∀ x k v, Inv x → k ≠ "address" → u (sendSet x k v) = u x := by
    intro x k v hx hk
    rcases hu with e | e <;> rw [e]
    · exact username_sendSet x hx k v hk
    · exact address_sendSet x hx k v hk
  have hua : ∀ x y : State, address x = address y → u x = u y := by
    intro x y hxy
    rcases hu with e | e <;> rw [e]
    · unfold username
      rw [hxy]
    · exact hxy
  clear_value s0
  have key := block_spec B s0 i0 u hur hus rs rp rsec ss sp ssec sa
  intro s1 s2 s3 s4 s5 s6 s7 s8 s9 s10 s11
  obtain ⟨hrow, haddr, _, _⟩ := key
  rw [t0] at hrow
  rw [hua s11 s0 haddr]
  exact hrow

/-! ## The claims -/

/-- C1: in every reachable state, each of the thirteen string properties
returns from its getter the value just given to its setter. -/
theorem C1_setter_getter_roundtrip (s : State) (h : Inv s) (v : String) :
    description (setDescription s v) = v ∧
    name (setName s v) = v ∧
    address (setAddress s v) = v ∧
    password (setPassword s v) = v ∧
    recvServer (setRecvServer s v) = v ∧
    recvPort (setRecvPort s v) = v ∧
    recvSecurity (setRecvSecurity s v) = v ∧
    recvUsername (setRecvUsername s v) = v ∧
    sendServer (setSendServer s v) = v ∧
    sendPort (setSendPort s v) = v ∧
    sendAuth (setSendAuth s v) = v ∧
    sendSecurity (setSendSecurity s v) = v ∧
    sendUsername (setSendUsername s v) = v := by
  have hr : ∀ k, recvGet (recvSet s k v) k = v := fun k => by
    rw [recvGet_recvSet s h, if_pos rfl]
  have hs : ∀ k, sendGet (sendSet s k v) k = v := fun k => by
    rw [sendGet_sendSet s h, if_pos rfl]
  exact ⟨rfl, hs "username", hs "address", rfl, hr "server", hr "port", hr "encryption",
    hr "username", hs "server", hs "port", hs "authentication", hs "encryption",
    hs "smtpusername"⟩

/-- The theorem C1 applied to a freshly constructed account. -/
theorem C1_setter_getter_roundtrip_witness :
    Inv new ∧ recvServer (setRecvServer new "mail.example.org") = "mail.example.org" ∧
      sendUsername (setSendUsername new "user") = "user" :=
  ⟨by decide,
    (C1_setter_getter_roundtrip new (by decide) "mail.example.org").2.2.2.2.1,
    (C1_setter_getter_roundtrip new (by decide) "user").2.2.2.2.2.2.2.2.2.2.2.2⟩

/-- C2: in every reachable state, after `applyPreset()` the getters return the
row of the provider table selected by `preset()`, and `recvUsername()` and
`sendUsername()` both equal `username()` for mobileme and aol and `address()`
for gmail, yahoo and mslive. -/
theorem C2_applyPreset_table (P : PresetType) (B : Base64) (s : State) (h : Inv s) :
    (preset s = P.mobilemePreset →
      presetRow (applyPreset P B s) "1" "mail.me.com" "993" "1"
        "smtp.me.com" "587" "1" "1" (username (applyPreset P B s))) ∧
    (preset s = P.gmailPreset →
      presetRow (applyPreset P B s) "1" "imap.gmail.com" "993" "1"
        "smtp.gmail.com" "465" "1" "1" (address (applyPreset P B s))) ∧
    (preset s = P.yahooPreset →
      presetRow (applyPreset P B s) "1" "imap.mail.yahoo.com" "993" "1"
        "smtp.mail.yahoo.com" "465" "1" "1" (address (applyPreset P B s))) ∧
    (preset s = P.aolPreset →
      presetRow (applyPreset P B s) "1" "imap.aol.com" "143" "0"
        "smtp.aol.com" "587" "0" "1" (username (applyPreset P B s))) ∧
    (preset s = P.mslivePreset →
      presetRow (applyPreset P B s) "0" "pop3.live.com" "995" "1"
        "smtp.live.com" "587" "2" "1" (address (applyPreset P B s))) := by
  obtain ⟨d1, d2, d3, d4, d5, d6, d7, d8, d9, d10⟩ := distinct_presets P
  refine ⟨?_, ?_, ?_, ?_, ?_⟩
  · intro hp
    unfold applyPreset
    rw [if_pos hp]
    exact branch_spec B s h "imap4" (Or.inr rfl) username (Or.inl rfl) _ _ _ _ _ _ _
  · intro hp
    unfold applyPreset
    rw [if_neg (by rw [hp]; exact Ne.symm d1), if_pos hp]
    exact branch_spec B s h "imap4" (Or.inr rfl) address (Or.inr rfl) _ _ _ _ _ _ _
  · intro hp
    unfold applyPreset
    rw [if_neg (by rw [hp]; exact Ne.symm d2), if_neg (by rw [hp]; exact Ne.symm d5), if_pos hp]
    exact branch_spec B s h "imap4" (Or.inr rfl) address (Or.inr rfl) _ _ _ _ _ _ _
  · intro hp
    unfold applyPreset
    rw [if_neg (by rw [hp]; exact Ne.symm d3), if_neg (by rw [hp]; exact Ne.symm d6),
      if_neg (by rw [hp]; exact Ne.symm d8), if_pos hp]
    exact branch_spec B s h "imap4" (Or.inr rfl) username (Or.inl rfl) _ _ _ _ _ _ _
  · intro hp
    unfold applyPreset
    rw [if_neg (by rw [hp]; exact Ne.symm d4), if_neg (by rw [hp]; exact Ne.symm d7),
      if_neg (by rw [hp]; exact Ne.symm d9), if_neg (by rw [hp]; exact Ne.symm d10), if_pos hp]
    exact branch_spec B s h "pop3" (Or.inl rfl) address (Or.inr rfl) _ _ _ _ _ _ _

/-- The theorem C2 applied to a fresh account (receive type pop3) with the
address user@example.org and the gmail preset. -/
theorem C2_applyPreset_table_witness :
    Inv (setPreset sampleAccount 2) ∧
    presetRow (applyPreset stdPresets Base64.standard (setPreset sampleAccount 2))
      "1" "imap.gmail.com" "993" "1" "smtp.gmail.com" "465" "1" "1"
      (address (applyPreset stdPresets Base64.standard (setPreset sampleAccount 2))) :=
  ⟨by decide,
    (C2_applyPreset_table stdPresets Base64.standard (setPreset sampleAccount 2)
      (by decide)).2.1 (by decide)⟩

/-- C3 as stated fails: after `setRecvPassword("a")` on a fresh account the
receive service holds under "password" the base64 text of "a", not "a" itself,
and likewise for `setSendPassword` under "smtppassword". -/
theorem C3_password_not_verbatim :
    (setRecvPassword Base64.standard new "a").mAccountConfig.serviceValue "pop3" "password"
        = "YQ==" ∧
    (setRecvPassword Base64.standard new "a").mAccountConfig.serviceValue "pop3" "password"
        ≠ "a" ∧
    (setSendPassword Base64.standard new "a").mAccountConfig.serviceValue "smtp" "smtppassword"
        ≠ "a" := by
  decide

/-- C3 amended: in every reachable state `setRecvPassword(v)` stores
`Base64::encode(v)` under "password" of the receive service and
`setSendPassword(v)` stores `Base64::encode(v)` under "smtppassword" of the
smtp service, while `setRecvServer`, `setRecvPort` and `setRecvUsername` store
`v` unchanged under "server", "port" and "username" of the receive service. -/
theorem C3_stored_values (B : Base64) (s : State) (h : Inv s) (v : String) :
    (setRecvPassword B s v).mAccountConfig.serviceValue s.mRecvType "password" = B.encode v ∧
    (setSendPassword B s v).mAccountConfig.serviceValue "smtp" "smtppassword" = B.encode v ∧
    (setRecvServer s v).mAccountConfig.serviceValue s.mRecvType "server" = v ∧
    (setRecvPort s v).mAccountConfig.serviceValue s.mRecvType "port" = v ∧
    (setRecvUsername s v).mAccountConfig.serviceValue s.mRecvType "username" = v := by
  obtain ⟨h1, h2, h3, h4, _⟩ := h
  simp [setRecvPassword, setSendPassword, setRecvServer, setRecvPort, setRecvUsername, h1, h2,
    h3, h4, QMailServiceConfiguration.setValue,
    QMailAccountConfiguration.serviceValue_setServiceValue]

/-- The theorem C3 (amended) applied to a freshly constructed account. -/
theorem C3_stored_values_witness :
    Inv new ∧
    (setRecvPassword Base64.standard new "a").mAccountConfig.serviceValue new.mRecvType
      "password" = Base64.standard.encode "a" :=
  ⟨by decide, (C3_stored_values Base64.standard new (by decide) "a").1⟩

/-- C4: the slot `activityChanged`: (i) retrieval Successful starts
`transmitMessages` for the account, emits nothing and keeps the state; (ii)
retrieval Failed stores the text and code of the retrieval status and emits
`testFailed(IncomingServer)`; (iii) transmit Successful emits `testSucceeded`
and keeps the state; (iv) transmit Failed stores the text and code of the
transmit status and emits `testFailed(OutgoingServer)`; (v) any other
activity, or any other sender, changes nothing and emits nothing; hence a
transmit is started only by a Successful retrieval (and never by
`testConfiguration`). -/
theorem C4_activityChanged_flow (s : State) :
    activityChanged Sender.retrievalAction Activity.Successful s =
      (s, [Effect.transmitMessages s.mAccount.id]) ∧
    activityChanged Sender.retrievalAction Activity.Failed s =
      ({ s with mErrorMessage := s.mRetrievalAction.status.text,
                mErrorCode := s.mRetrievalAction.status.errorCode },
        [Effect.testFailed ServerType.IncomingServer]) ∧
    activityChanged Sender.transmitAction Activity.Successful s = (s, [Effect.testSucceeded]) ∧
    activityChanged Sender.transmitAction Activity.Failed s =
      ({ s with mErrorMessage := s.mTransmitAction.status.text,
                mErrorCode := s.mTransmitAction.status.errorCode },
        [Effect.testFailed ServerType.OutgoingServer]) ∧
    (∀ sender, activityChanged sender Activity.Pending s = (s, []) ∧
      activityChanged sender Activity.InProgress s = (s, [])) ∧
    (∀ activity, activityChanged Sender.other activity s = (s, [])) ∧
    (∀ sender activity id, Effect.transmitMessages id ∈ (activityChanged sender activity s).2 →
      sender = Sender.retrievalAction ∧ activity = Activity.Successful ∧ id = s.mAccount.id) ∧
    (∀ id, Effect.transmitMessages id ∉ (testConfiguration s).2) := by
  refine ⟨rfl, rfl, rfl, rfl, ?_, ?_, ?_, ?_⟩
  · intro sender
    cases sender <;> exact ⟨rfl, rfl⟩
  · intro activity
    cases activity <;> rfl
  · intro sender activity id
    cases sender <;> cases activity <;> simp [activityChanged]
  · intro id
    unfold testConfiguration
    split <;> simp

/-- C5: `externalRecvType` and `internalRecvType` are mutual inverses between
pop3, imap4 and the codes 0, 1 (0 is pop3, 1 is imap4), and in every state
`recvType()` returns the code just given to `setRecvType`, for both codes. -/
theorem C5_recvType_roundtrip (s : State) :
    externalRecvType "pop3" = "0" ∧ externalRecvType "imap4" = "1" ∧
    internalRecvType "0" = "pop3" ∧ internalRecvType "1" = "imap4" ∧
    internalRecvType (externalRecvType "pop3") = "pop3" ∧
    internalRecvType (externalRecvType "imap4") = "imap4" ∧
    externalRecvType (internalRecvType "0") = "0" ∧
    externalRecvType (internalRecvType "1") = "1" ∧
    recvType (setRecvType s "0") = "0" ∧ recvType (setRecvType s "1") = "1" := by
  refine ⟨by decide, by decide, by decide, by decide, by decide, by decide, by decide,
    by decide, ?_, ?_⟩
  · rw [recvType, mRecvType_setRecvType]
    decide
  · rw [recvType, mRecvType_setRecvType]
    decide

/-- C6: for an address `local@domain` in which neither part contains an
at-sign, `username()` is the local part and `server()` the domain, so the two
joined by an at-sign give back the address; for an address without an at-sign
both return the whole address. -/
theorem C6_username_server (s : State) :
    (∀ l d : String, '@' ∉ l.data → '@' ∉ d.data → address s = l ++ "@" ++ d →
      username s = l ∧ server s = d ∧ username s ++ "@" ++ server s = address s) ∧
    ('@' ∉ (address s).data → username s = address s ∧ server s = address s) := by
  constructor
  · intro l d hl hd ha
    have hdata : (address s).data = l.data ++ '@' :: d.data := by
      rw [ha]
      simp [String.data_append]
    have hu : username s = l := by
      unfold username
      rw [hdata, QString.removeAtToEnd_append _ _ hl]
    have hs : server s = d := by
      unfold server
      rw [hdata, QString.removeStartToAt_append _ _ hd]
    exact ⟨hu, hs, by rw [hu, hs, ha]⟩
  · intro h
    constructor
    · unfold username
      rw [QString.removeAtToEnd_of_not_mem _ h]
    · unfold server
      rw [QString.removeStartToAt_of_not_mem _ h]

/-- The theorem C6 applied to the address user@example.org, and to an address
without an at-sign. -/
theorem C6_username_server_witness :
    (username sampleAccount = "user" ∧ server sampleAccount = "example.org" ∧
      username sampleAccount ++ "@" ++ server sampleAccount = address sampleAccount) ∧
    (username (setAddress new "localhost") = address (setAddress new "localhost") ∧
      server (setAddress new "localhost") = address (setAddress new "localhost")) :=
  ⟨(C6_username_server sampleAccount).1 "user" "example.org" (by decide) (by decide)
      (by decide),
    (C6_username_server (setAddress new "localhost")).2 (by decide)⟩

/-- C7: `save()` sets the description to the server for custom accounts only:
with an invalid account id and `preset()` equal to `noPreset`, the description
after `save()` is `server()`; with a valid id, or any other preset, the
description is unchanged.  `server()` itself is the same before and after. -/
theorem C7_save_description (P : PresetType) (store : QMailStore) (s : State) :
    description (save P store s).1 =
      (if s.mAccount.id.isValid = false ∧ preset s = P.noPreset then server s
        else description s) ∧
    server (save P store s).1 = server s := by
  obtain ⟨hn, hi, hc, hcfg, hsend, _, _⟩ := saveStatus_keeps s
  have hdesc : description (saveStatus s) = description s := by
    unfold description
    exact hn
  have hserver : server (saveStatus s) = server s := by
    unfold server address
    rw [hcfg, hsend]
  have hpreset : preset (saveStatus s) = preset s := by
    unfold preset QMailAccount.customField
    rw [hc]
  unfold save
  simp only []
  generalize saveStatus s = t at hdesc hserver hpreset hi ⊢
  by_cases hv : s.mAccount.id.isValid = true
  · have hv2 : ¬ (s.mAccount.id.isValid = false) := by simp [hv]
    rw [hi, if_pos hv, if_neg (fun h => hv2 h.1)]
    exact ⟨hdesc, hserver⟩
  · have hv2 : s.mAccount.id.isValid = false := by simpa using hv
    rw [hi, if_neg hv, hpreset]
    by_cases hp : preset s = P.noPreset
    · rw [if_pos hp, if_pos ⟨hv2, hp⟩]
      cases store.addAccount (setDescription t (server t)).mAccount
          (setDescription t (server t)).mAccountConfig with
      | none => exact ⟨hserver, hserver⟩
      | some newId => exact ⟨hserver, hserver⟩
    · rw [if_neg hp, if_neg (fun h => hp h.2)]
      cases store.addAccount t.mAccount t.mAccountConfig with
      | none => exact ⟨hdesc, hserver⟩
      | some newId => exact ⟨hdesc, hserver⟩

/-- C8: when the receive type is pop3 or imap4, `setRecvType` called with the
code of the current type leaves the whole state unchanged; in particular the
receive server, port, security, username and stored password are the same. -/
theorem C8_setRecvType_same_type (s : State)
    (h : s.mRecvType = "pop3" ∨ s.mRecvType = "imap4") :
    setRecvType s (recvType s) = s ∧
    recvServer (setRecvType s (recvType s)) = recvServer s ∧
    recvPort (setRecvType s (recvType s)) = recvPort s ∧
    recvSecurity (setRecvType s (recvType s)) = recvSecurity s ∧
    recvUsername (setRecvType s (recvType s)) = recvUsername s ∧
    recvGet (setRecvType s (recvType s)) "password" = recvGet s "password" := by
  have key : setRecvType s (recvType s) = s := by
    have hi : internalRecvType (recvType s) = s.mRecvType := by
      rcases h with h | h <;> rw [recvType, h] <;> decide
    unfold setRecvType
    simp [hi]
  rw [key]
  exact ⟨rfl, rfl, rfl, rfl, rfl, rfl⟩

/-- The theorem C8 applied to an imap4 account whose receive server, port,
security, username and password are stored: all of them are still there after
`setRecvType` was called with the code of the current type. -/
theorem C8_setRecvType_same_type_witness :
    (configuredAccount.mRecvType = "pop3" ∨ configuredAccount.mRecvType = "imap4") ∧
    setRecvType configuredAccount (recvType configuredAccount) = configuredAccount ∧
    recvServer (setRecvType configuredAccount (recvType configuredAccount))
      = "mail.example.org" ∧
    recvPort (setRecvType configuredAccount (recvType configuredAccount)) = "993" ∧
    recvSecurity (setRecvType configuredAccount (recvType configuredAccount)) = "1" ∧
    recvUsername (setRecvType configuredAccount (recvType configuredAccount)) = "user" ∧
    recvGet (setRecvType configuredAccount (recvType configuredAccount)) "password"
      = "c2VjcmV0" :=
  ⟨by decide,
    (C8_setRecvType_same_type configuredAccount (by decide)).1,
    (C8_setRecvType_same_type configuredAccount (by decide)).2.1.trans (by decide),
    (C8_setRecvType_same_type configuredAccount (by decide)).2.2.1.trans (by decide),
    (C8_setRecvType_same_type configuredAccount (by decide)).2.2.2.1.trans (by decide),
    (C8_setRecvType_same_type configuredAccount (by decide)).2.2.2.2.1.trans (by decide),
    (C8_setRecvType_same_type configuredAccount (by decide)).2.2.2.2.2.trans (by decide)⟩

end EmailAccount
